import Mathlib

/-!
Verification development for the `metodo-numerico` repository: a shallow
embedding, over exact rationals, of the ODE-solver core (`src/solvers/`) and
of the analysis utilities (`src/utils/analytic_solution.py`,
`src/utils/convergence_analysis.py`), together with theorems checking the
natural-language specification against it.

Finite floating-point values are modelled as exact rationals; the special
IEEE values (infinities, NaN) that `numpy` can produce are modelled
explicitly where the code's behaviour depends on them.
-/

/-- Model of an IEEE double as held in a Python/NumPy value: a finite value
(arithmetic on finite values is modelled exactly over `ℚ`), one of the two
infinities, or NaN. -/
inductive PyFloat where
  | finite (q : ℚ)
  | posinf
  | neginf
  | nan
  deriving DecidableEq

/-- Model of the Python values that may reach `BaseSolver._validar_parametros`:
an `int`, a `float`, or some other (non-numeric) object such as a string. -/
inductive PyVal where
  | int (i : ℤ)
  | float (x : PyFloat)
  | other
  deriving DecidableEq

/-- Python `isinstance(v, int)`. -/
def PyVal.isInstInt : PyVal → Bool
  | .int _ => true
  | _ => false

/-- Python `isinstance(v, (int, float))`. -/
def PyVal.isNumber : PyVal → Bool
  | .int _ => true
  | .float _ => true
  | _ => false

/-- Whether a value is a finite real number (an `int`, or a `float` that is
neither infinite nor NaN).  This is the predicate the specification's
precondition talks about; the source never tests it. -/
def PyVal.isFiniteNumber : PyVal → Bool
  | .int _ => true
  | .float (.finite _) => true
  | _ => false

/-- Python `n <= 0` for the values on which the source evaluates it (only
`int`s, thanks to short-circuiting of `not isinstance(n, int) or n <= 0`). -/
def PyVal.nonposInt : PyVal → Bool
  | .int i => decide (i ≤ 0)
  | _ => false

/-- Embedding of `BaseSolver._validar_parametros` (src/solvers/base_solver.py,
lines 73-91).  The three checks run in source order and the first failing one
raises `ValueError` with the corresponding message.  The step size `h` is a
finite double, modelled exactly as a rational. -/
def validar_parametros (t0 y0 : PyVal) (h : ℚ) (n : PyVal) : Except String Unit :=
  if !n.isInstInt || n.nonposInt then
    .error "El número de pasos debe ser un entero positivo"
  else if h ≤ 0 then
    .error "El tamaño del paso debe ser positivo"
  else if !t0.isNumber || !y0.isNumber then
    .error "Los valores iniciales deben ser números"
  else
    .ok ()

/-- Largest finite IEEE-754 double, `np.finfo(np.float64).max = (2^53-1)·2^971`;
`np.nan_to_num` substitutes it for `+inf` by default. -/
def float64_max : ℚ := (2 ^ 53 - 1) * 2 ^ 971

/-- NumPy elementwise division of finite doubles: division by zero yields
`±inf`, and `0/0` yields NaN (warnings are suppressed by `np.errstate` in the
source, the values are produced regardless). -/
def npDiv (a b : ℚ) : PyFloat :=
  if b ≠ 0 then .finite (a / b)
  else if 0 < a then .posinf
  else if a < 0 then .neginf
  else .nan

/-- NumPy `np.abs` on an extended value. -/
def npAbsF : PyFloat → PyFloat
  | .finite q => .finite |q|
  | .posinf => .posinf
  | .neginf => .posinf
  | .nan => .nan

/-- NumPy `np.nan_to_num` with default arguments: NaN becomes `0.0`, `+inf`
becomes the largest finite double, `-inf` its negation; finite values are
unchanged. -/
def nan_to_num : PyFloat → ℚ
  | .finite q => q
  | .posinf => float64_max
  | .neginf => -float64_max
  | .nan => 0

/-- Embedding of `AnalyticSolution.calculate_errors`
(src/utils/analytic_solution.py, lines 74-94) on arrays of finite doubles:
`error_abs = np.abs(y_numeric - y_analytic)` and
`error_rel = np.nan_to_num(np.abs(error_abs / y_analytic))`. -/
def calculate_errors (y_numeric y_analytic : List ℚ) : List ℚ × List ℚ :=
  let error_abs := List.zipWith (fun yn ya => |yn - ya|) y_numeric y_analytic
  let error_rel :=
    List.zipWith (fun e ya => nan_to_num (npAbsF (npDiv e ya))) error_abs y_analytic
  (error_abs, error_rel)

/-- One iteration of the Euler loop (src/solvers/euler_solver.py, lines
109-118) acting on the pair `(t, y)`: `y_next = y + h * f(t, y)` and
`t_next = t + h`. -/
def eulerNext (f : ℚ → ℚ → ℚ) (h : ℚ) (p : ℚ × ℚ) : ℚ × ℚ :=
  (p.1 + h, p.2 + h * f p.1 p.2)

/-- One iteration of the Heun loop (src/solvers/heun_solver.py, lines
115-129): predictor `y_pred = y + h*f1`, corrector
`y_next = y + (h/2)*(f1 + f2)` with `f2 = f(t + h, y_pred)`. -/
def heunNext (f : ℚ → ℚ → ℚ) (h : ℚ) (p : ℚ × ℚ) : ℚ × ℚ :=
  let f1 := f p.1 p.2
  let y_pred := p.2 + h * f1
  let f2 := f (p.1 + h) y_pred
  (p.1 + h, p.2 + (h / 2) * (f1 + f2))

/-- One iteration of the RK4 loop (src/solvers/rk4_solver.py, lines 81-96):
the four stage slopes `k1..k4` followed by
`y_next = y + (h/6)*(k1 + 2*k2 + 2*k3 + k4)`. -/
def rk4Next (f : ℚ → ℚ → ℚ) (h : ℚ) (p : ℚ × ℚ) : ℚ × ℚ :=
  let k1 := f p.1 p.2
  let k2 := f (p.1 + h / 2) (p.2 + h * k1 / 2)
  let k3 := f (p.1 + h / 2) (p.2 + h * k2 / 2)
  let k4 := f (p.1 + h) (p.2 + h * k3)
  (p.1 + h, p.2 + (h / 6) * (k1 + 2 * k2 + 2 * k3 + k4))

/-- State `(t_values[i], y_values[i])` after `i` iterations of a stepping
loop with per-step update `g`, started from `p0 = (t0, y0)`. -/
def iterSteps (g : ℚ × ℚ → ℚ × ℚ) (p0 : ℚ × ℚ) : ℕ → ℚ × ℚ
  | 0 => p0
  | i + 1 => g (iterSteps g p0 i)

/-- The pair of arrays `(t_values, y_values)` of length `n + 1` filled by the
stepping loop: entry `i` holds the state after `i` steps, entry `0` the
initial condition. -/
def trajLists (g : ℚ × ℚ → ℚ × ℚ) (p0 : ℚ × ℚ) (n : ℕ) : List ℚ × List ℚ :=
  ((List.range (n + 1)).map fun i => (iterSteps g p0 i).1,
   (List.range (n + 1)).map fun i => (iterSteps g p0 i).2)

/-- Embedding of `EulerSolver.solve` (src/solvers/euler_solver.py, lines
80-120): validate the parameters, then run the Euler loop.  The ODE
right-hand side evaluated by `self.evaluar_funcion` is the parameter `f`;
`t0`, `y0`, `h` are finite doubles modelled as rationals, `n` a Python int. -/
def EulerSolver.solve (f : ℚ → ℚ → ℚ) (t0 y0 h : ℚ) (n : ℤ) :
    Except String (List ℚ × List ℚ) :=
  match validar_parametros (.float (.finite t0)) (.float (.finite y0)) h (.int n) with
  | .error e => .error e
  | .ok _ => .ok (trajLists (eulerNext f h) (t0, y0) n.toNat)

/-- Embedding of `HeunSolver.solve` (src/solvers/heun_solver.py, lines
85-131): validate the parameters, then run the Heun loop. -/
def HeunSolver.solve (f : ℚ → ℚ → ℚ) (t0 y0 h : ℚ) (n : ℤ) :
    Except String (List ℚ × List ℚ) :=
  match validar_parametros (.float (.finite t0)) (.float (.finite y0)) h (.int n) with
  | .error e => .error e
  | .ok _ => .ok (trajLists (heunNext f h) (t0, y0) n.toNat)

/-- Embedding of `RK4Solver.solve` (src/solvers/rk4_solver.py, lines 51-98):
validate the parameters, then run the RK4 loop. -/
def RK4Solver.solve (f : ℚ → ℚ → ℚ) (t0 y0 h : ℚ) (n : ℤ) :
    Except String (List ℚ × List ℚ) :=
  match validar_parametros (.float (.finite t0)) (.float (.finite y0)) h (.int n) with
  | .error e => .error e
  | .ok _ => .ok (trajLists (rk4Next f h) (t0, y0) n.toNat)

/-- A call to `self.evaluar_funcion`, threaded with a running count of how
many times the ODE right-hand side has been evaluated so far. -/
def countedApply (f : ℚ → ℚ → ℚ) (t y : ℚ) (c : ℕ) : ℚ × ℕ := (f t y, c + 1)

/-- The Heun loop body with its two `evaluar_funcion` call sites instrumented
by `countedApply`, mirroring src/solvers/heun_solver.py lines 119-124. -/
def heunNextCounted (f : ℚ → ℚ → ℚ) (h : ℚ) (s : (ℚ × ℚ) × ℕ) : (ℚ × ℚ) × ℕ :=
  let t := s.1.1
  let y := s.1.2
  let r1 := countedApply f t y s.2
  let y_pred := y + h * r1.1
  let r2 := countedApply f (t + h) y_pred r1.2
  ((t + h, y + (h / 2) * (r1.1 + r2.1)), r2.2)

/-- The RK4 loop body with its four `evaluar_funcion` call sites instrumented
by `countedApply`, mirroring src/solvers/rk4_solver.py lines 86-92. -/
def rk4NextCounted (f : ℚ → ℚ → ℚ) (h : ℚ) (s : (ℚ × ℚ) × ℕ) : (ℚ × ℚ) × ℕ :=
  let t := s.1.1
  let y := s.1.2
  let r1 := countedApply f t y s.2
  let r2 := countedApply f (t + h / 2) (y + h * r1.1 / 2) r1.2
  let r3 := countedApply f (t + h / 2) (y + h * r2.1 / 2) r2.2
  let r4 := countedApply f (t + h) (y + h * r3.1) r3.2
  ((t + h, y + (h / 6) * (r1.1 + 2 * r2.1 + 2 * r3.1 + r4.1)), r4.2)

/-- Iterating an instrumented loop body, with the evaluation counter starting
at `0`. -/
def iterCounted (g : (ℚ × ℚ) × ℕ → (ℚ × ℚ) × ℕ) (p0 : ℚ × ℚ) : ℕ → (ℚ × ℚ) × ℕ
  | 0 => (p0, 0)
  | i + 1 => g (iterCounted g p0 i)

/-- The three solver classes registered in `AVAILABLE_SOLVERS`
(src/solvers/__init__.py, lines 7-11). -/
inductive SolverClass where
  | euler
  | heun
  | rk4
  deriving DecidableEq

/-- A constructed solver object: its class together with the `funcion` string
stored by `BaseSolver.__init__`. -/
structure SolverInstance where
  cls : SolverClass
  funcion : String
  deriving DecidableEq

/-- The Python exceptions the solver-selection and analysis layer can
produce: `ValueError` (raised explicitly, with its message), `TypeError`
(raised by the interpreter on a call with the wrong number of arguments),
and `NameError` (reading a local variable before its first assignment). -/
inductive PyError where
  | valueError (msg : String)
  | typeError
  | nameError
  deriving DecidableEq

/-- The `AVAILABLE_SOLVERS` dictionary (src/solvers/__init__.py, lines 7-11),
as an association list in insertion order. -/
def AVAILABLE_SOLVERS : List (String × SolverClass) :=
  [("euler", .euler), ("heun", .heun), ("rk4", .rk4)]

/-- Python `str.lower` on one character, for the ASCII range the method
selector strings live in: `A`-`Z` maps to `a`-`z`, everything else is fixed. -/
def pyCharLower (c : Char) : Char :=
  if 65 ≤ c.toNat ∧ c.toNat ≤ 90 then Char.ofNat (c.toNat + 32) else c

/-- Python `str.lower`, applied characterwise. -/
def pyLower (s : String) : String := ⟨s.data.map pyCharLower⟩

/-- Dictionary membership plus lookup: `AVAILABLE_SOLVERS[m]` when
`m in AVAILABLE_SOLVERS`, mirroring lines 27-30 of src/solvers/__init__.py. -/
def lookupSolver (m : String) : Option SolverClass :=
  (AVAILABLE_SOLVERS.find? fun p => p.1 == m).map fun p => p.2

/-- Calling a solver class with an argument list.  Each class constructor
(`EulerSolver.__init__`, `HeunSolver.__init__`, `RK4Solver.__init__`) takes
exactly one required positional argument `funcion`; any other arity is a
`TypeError`. -/
def instantiateSolver (cls : SolverClass) (args : List String) :
    Except PyError SolverInstance :=
  match args with
  | [funcion] => .ok ⟨cls, funcion⟩
  | _ => .error .typeError

/-- Embedding of `get_solver` (src/solvers/__init__.py, lines 13-30): lower
the method name, raise `ValueError` listing the valid names when it is not a
key of `AVAILABLE_SOLVERS`, otherwise call the selected class with no
arguments (`AVAILABLE_SOLVERS[method_name]()`). -/
def get_solver (method_name : String) : Except PyError SolverInstance :=
  let m := pyLower method_name
  match lookupSolver m with
  | none =>
      .error (.valueError ("Método no disponible: " ++ m ++
        ". Métodos disponibles: euler, heun, rk4"))
  | some cls => instantiateSolver cls []

/-- The solver class selected by `get_solver`'s dictionary lookup (before the
constructor call), i.e. `AVAILABLE_SOLVERS[method_name.lower()]`. -/
def selectedClass (method_name : String) : Option SolverClass :=
  lookupSolver (pyLower method_name)

/-- Python `int()` applied to a float: truncation toward zero. -/
def pyInt (q : ℚ) : ℤ :=
  if 0 ≤ q then ⌊q⌋ else ⌈q⌉

/-- Python `min` on a nonempty list (`min(step_sizes)`); on the empty list the
source would raise, the `0` default is never reached in any theorem below. -/
def listMin : List ℚ → ℚ
  | [] => 0
  | x :: xs => xs.foldl min x

/-- NumPy `np.linspace(a, b, num)` over exact rationals. -/
def linspace (a b : ℚ) (num : ℕ) : List ℚ :=
  match num with
  | 0 => []
  | 1 => [a]
  | _ => (List.range num).map fun k => a + (b - a) * k / (num - 1)

/-- Helper for `np.interp`: walk the `(xp, fp)` pairs and linearly
interpolate `x` between the two neighbouring sample points, clamping to the
end values outside the sampled range. -/
def interpPairs (x : ℚ) : List (ℚ × ℚ) → ℚ
  | [] => 0
  | [(_, f0)] => f0
  | (x0, f0) :: (x1, f1) :: rest =>
      if x ≤ x0 then f0
      else if x ≤ x1 then f0 + (f1 - f0) * (x - x0) / (x1 - x0)
      else interpPairs x ((x1, f1) :: rest)

/-- NumPy `np.interp(x, xp, fp)` for one abscissa `x`. -/
def interp (x : ℚ) (xp fp : List ℚ) : ℚ := interpPairs x (xp.zip fp)

/-- NumPy `np.max(np.abs(l))` (over the pointwise differences already taken);
`0` stands for the empty case the source never reaches. -/
def maxAbs (l : List ℚ) : ℚ := (l.map fun q => |q|).foldr max 0

/-- The method selector of a convergence run, ranging over the three
registered variants. -/
inductive Method where
  | euler
  | heun
  | rk4
  deriving DecidableEq

/-- The per-step update rule of each variant. -/
def methodNext : Method → (ℚ → ℚ → ℚ) → ℚ → ℚ × ℚ → ℚ × ℚ
  | .euler => eulerNext
  | .heun => heunNext
  | .rk4 => rk4Next

/-- Dispatch `solver.solve` over the selected variant. -/
def Method.solve : Method → (ℚ → ℚ → ℚ) → ℚ → ℚ → ℚ → ℤ → Except String (List ℚ × List ℚ)
  | .euler => EulerSolver.solve
  | .heun => HeunSolver.solve
  | .rk4 => RK4Solver.solve

/-- The call `solver.solve(func_str, t0, y0, h, n)` made by the convergence
analyser (src/utils/convergence_analysis.py, lines 69 and 80): five
positional arguments for a method declared as `solve(self, t0, y0, h, n)`.
CPython raises `TypeError` for the arity mismatch before the method body
runs, so these call sites can never produce a trajectory. -/
def solveCallFiveArgs (solver : SolverInstance) (func_str : String)
    (t0 y0 h : ℚ) (n : ℤ) : Except PyError (List ℚ × List ℚ) :=
  .error .typeError

/-- The sweep loop of `ConvergenceAnalysis.analyze_step_size`
(src/utils/convergence_analysis.py, lines 63-85), transcribed with the calls
the source actually makes.  Arguments after `all_steps` thread the loop
state: the remaining step sizes, the `enumerate` index `i`, and the `y_ref`
local (unset before the first iteration; reading it unset is a `NameError`).
Per iteration: `n = int((t_end - t0)/h)` (line 68), then the five-argument
`solver.solve(func_str, t0, y0, h, n)` (line 69), whose `TypeError` aborts
the sweep on its first iteration.  The analytic branch (lines 71-73) and the
reference branch (lines 75-85 — building `y_ref` when `i == 0` through
`get_solver('rk4').solve(func_str, ...)`, line 80, a zero-argument
constructor call followed by another five-argument call) are transcribed
below it but are unreachable. -/
def analyzeLoop (solver : SolverInstance) (func_str : String) (t0 y0 t_end : ℚ)
    (analytic : Option (ℚ → ℚ)) (all_steps : List ℚ) :
    List ℚ → ℕ → Option (List ℚ) → Except PyError (List ℚ)
  | [], _, _ => .ok []
  | h :: hs, i, yref =>
      match solveCallFiveArgs solver func_str t0 y0 h (pyInt ((t_end - t0) / h)) with
      | .error e => .error e
      | .ok (t_values, y_numeric) =>
        match analytic with
        | some sol =>
            let y_analytic := t_values.map sol
            let err := maxAbs (List.zipWith (fun a b => a - b) y_numeric y_analytic)
            match analyzeLoop solver func_str t0 y0 t_end analytic all_steps hs (i + 1) yref with
            | .error e => .error e
            | .ok rest => .ok (err :: rest)
        | none =>
            match
              (if i = 0 then
                match get_solver "rk4" with
                | .error e => .error e
                | .ok rk4solver =>
                  match solveCallFiveArgs rk4solver func_str t0 y0
                      (listMin all_steps / 10)
                      (pyInt ((t_end - t0) / (listMin all_steps / 10))) with
                  | .error e => .error e
                  | .ok pr => .ok (some pr.2)
              else .ok yref : Except PyError (Option (List ℚ))) with
            | .error e => .error e
            | .ok none => .error .nameError
            | .ok (some y_ref) =>
                let t_ref := linspace t0 t_end y_ref.length
                let y_interp := t_values.map fun t => interp t t_ref y_ref
                let err := maxAbs (List.zipWith (fun a b => a - b) y_numeric y_interp)
                match analyzeLoop solver func_str t0 y0 t_end analytic all_steps hs (i + 1)
                    (some y_ref) with
                | .error e => .error e
                | .ok rest => .ok (err :: rest)

/-- Slope and intercept of the least-squares line through the points
`(xs[i], ys[i])`, by Cramer's rule on the normal equations of the design
matrix `np.vstack([xs, ones]).T`.  This is the unique solution
`np.linalg.lstsq` returns whenever the matrix has full rank (at least two
distinct `xs`); in the rank-deficient case `lstsq` returns the minimum-norm
solution instead, which this closed form (with `ℚ`'s convention `x/0 = 0`)
does not reproduce.  In the program this computation is dead code — the
sweep raises first — and no theorem below depends on its value. -/
def lstsqLine (xs ys : List ℚ) : ℚ × ℚ :=
  let nn : ℚ := xs.length
  let sx := xs.sum
  let sy := ys.sum
  let sxy := (xs.zip ys).foldr (fun p acc => p.1 * p.2 + acc) 0
  let sxx := (xs.map fun x => x * x).sum
  let det := nn * sxx - sx * sx
  ((nn * sxy - sx * sy) / det, (sxx * sy - sx * sxy) / det)

/-- Transcription of the order-estimation tail of `analyze_step_size`
(src/utils/convergence_analysis.py, lines 87-101): when `log_scale` is set
and more than one step size was sampled, fit a line to `log10(error)`
versus `log10(h)` and return its slope; otherwise the order is `None`.
Since `log10` is irrational-valued it is passed as an abstract function
`L`.  Like the sweep body, this tail is unreachable in the program (line 53
raises first); nothing below depends on its value. -/
def estimate_order (L : ℚ → ℚ) (step_sizes errors : List ℚ) (log_scale : Bool) :
    Option ℚ :=
  if log_scale ∧ 1 < step_sizes.length then
    some (lstsqLine (step_sizes.map L) (errors.map L)).1
  else
    none

/-- Embedding of `ConvergenceAnalysis.analyze_step_size`
(src/utils/convergence_analysis.py, lines 26-103) as the program executes
it: line 53 calls `get_solver(method_name)`, which raises for every method
name (see `get_solver`); only a returned solver would let the sweep of
lines 63-85 and the order fit of lines 87-101 run.  The analytic solution
is taken pre-parsed as an optional callable, and the base-10 logarithm used
by the (dead) fit is the abstract parameter `L`. -/
def analyze_step_size (method_name func_str : String) (t0 y0 t_end : ℚ)
    (solution_str : Option (ℚ → ℚ)) (step_sizes : List ℚ) (log_scale : Bool)
    (L : ℚ → ℚ) : Except PyError (List ℚ × List ℚ × Option ℚ) :=
  match get_solver method_name with
  | .error e => .error e
  | .ok solver =>
      match analyzeLoop solver func_str t0 y0 t_end solution_str step_sizes
          step_sizes 0 none with
      | .error e => .error e
      | .ok errors =>
          .ok (step_sizes, errors, estimate_order L step_sizes errors log_scale)

/-- A solve result is a well-formed trajectory of the stated length whose
first entries are exactly the initial condition. -/
def trajOk (r : Except String (List ℚ × List ℚ)) (t0 y0 : ℚ) (len : ℕ) : Prop :=
  ∃ ts ys, r = .ok (ts, ys) ∧ ts.length = len ∧ ys.length = len ∧
    ts.head? = some t0 ∧ ys.head? = some y0

/-- A solve result is a trajectory all of whose `y_values` equal `y0`. -/
def constTraj (r : Except String (List ℚ × List ℚ)) (y0 : ℚ) : Prop :=
  ∃ ts ys, r = .ok (ts, ys) ∧ ∀ y ∈ ys, y = y0

theorem validar_ok_iff (t0 y0 : PyVal) (h : ℚ) (n : PyVal) :
    validar_parametros t0 y0 h n = .ok () ↔
      n.isInstInt = true ∧ n.nonposInt = false ∧ 0 < h ∧
        t0.isNumber = true ∧ y0.isNumber = true := by
  rcases n with i | x | _ <;>
    simp [validar_parametros, PyVal.isInstInt, PyVal.nonposInt] <;>
    split_ifs with h1 h2 h3 <;>
    simp_all [not_lt, le_of_lt] <;>
    first
      | omega
      | tauto
      | (intro hc; rcases h3 with h3 | h3 <;> simp_all)

theorem validar_int_ok (t0 y0 h) (n : ℤ) (hh : 0 < h) (hn : 1 ≤ n) :
    validar_parametros (.float (.finite t0)) (.float (.finite y0)) h (.int n) = .ok () := by
  rw [validar_ok_iff]
  refine ⟨rfl, ?_, hh, rfl, rfl⟩
  simp [PyVal.nonposInt]
  omega

theorem eulerSolve_eq (f t0 y0 h) (n : ℤ) (hh : 0 < h) (hn : 1 ≤ n) :
    EulerSolver.solve f t0 y0 h n = .ok (trajLists (eulerNext f h) (t0, y0) n.toNat) := by
  unfold EulerSolver.solve
  rw [validar_int_ok t0 y0 h n hh hn]

theorem trajLists_fst_length (g p0 n) : (trajLists g p0 n).1.length = n + 1 := by
  simp [trajLists]

theorem trajLists_fst_head (g p0 n) : (trajLists g p0 n).1.head? = some p0.1 := by
  simp [trajLists, List.range_succ_eq_map, iterSteps]

theorem iterSteps_snd_fixed (g p0) (hg : ∀ p, (g p).2 = p.2) :
    ∀ i, (iterSteps g p0 i).2 = p0.2 := by
  intro i
  induction i with
  | zero => rfl
  | succ i ih => rw [iterSteps, hg, ih]

theorem heunNextCounted_eq (f h) (p : ℚ × ℚ) (c : ℕ) :
    heunNextCounted f h (p, c) = (heunNext f h p, c + 2) := rfl

theorem rk4NextCounted_eq (f h) (p : ℚ × ℚ) (c : ℕ) :
    rk4NextCounted f h (p, c) = (rk4Next f h p, c + 4) := rfl

theorem iterCounted_spec (g : ℚ × ℚ → ℚ × ℚ) (gc) (k : ℕ)
    (hgc : ∀ p c, gc (p, c) = (g p, c + k)) (p0) :
    ∀ i, iterCounted gc p0 i = (iterSteps g p0 i, k * i) := by
  intro i
  induction i with
  | zero => simp [iterCounted, iterSteps]
  | succ i ih => rw [iterCounted, ih, hgc, iterSteps, Nat.mul_succ]

theorem eulerNext_zero_snd (h : ℚ) (p : ℚ × ℚ) :
    (eulerNext (fun _ _ => 0) h p).2 = p.2 := by simp [eulerNext]

theorem heunNext_zero_snd (h : ℚ) (p : ℚ × ℚ) :
    (heunNext (fun _ _ => 0) h p).2 = p.2 := by simp [heunNext]

theorem rk4Next_zero_snd (h : ℚ) (p : ℚ × ℚ) :
    (rk4Next (fun _ _ => 0) h p).2 = p.2 := by simp [rk4Next]

theorem rk4_step_formula (f : ℚ → ℚ → ℚ) (h : ℚ) (s : ℚ × ℚ) (i : ℕ) :
    iterSteps (rk4Next f h) s (i + 1) =
      (let p := iterSteps (rk4Next f h) s i
       let k1 := f p.1 p.2
       let k2 := f (p.1 + h / 2) (p.2 + h * k1 / 2)
       let k3 := f (p.1 + h / 2) (p.2 + h * k2 / 2)
       let k4 := f (p.1 + h) (p.2 + h * k3)
       (p.1 + h, p.2 + (h / 6) * (k1 + 2 * k2 + 2 * k3 + k4))) := rfl

theorem pyCharLower_idem (c : Char) : pyCharLower (pyCharLower c) = pyCharLower c := by
  unfold pyCharLower
  by_cases hc : 65 ≤ c.toNat ∧ c.toNat ≤ 90
  · rw [if_pos hc]
    have hv : (c.toNat + 32).isValidChar := Or.inl (by omega)
    have ht : (Char.ofNat (c.toNat + 32)).toNat = c.toNat + 32 := by
      rw [Char.ofNat, dif_pos hv]
      rfl
    rw [if_neg (by rw [ht]; omega)]
  · rw [if_neg hc, if_neg hc]

theorem map_pyCharLower_idem (l : List Char) :
    (l.map pyCharLower).map pyCharLower = l.map pyCharLower := by
  induction l with
  | nil => rfl
  | cons c l ih => simp [pyCharLower_idem, ih]

theorem pyLower_idem (s : String) : pyLower (pyLower s) = pyLower s := by
  unfold pyLower
  exact congrArg String.mk (map_pyCharLower_idem s.data)

theorem get_solver_lower_eq (s : String) : get_solver s = get_solver (pyLower s) := by
  unfold get_solver
  rw [pyLower_idem]

theorem get_solver_always_raises (s : String) : ∃ e, get_solver s = .error e := by
  cases hl : lookupSolver (pyLower s) with
  | none =>
      refine ⟨.valueError ("Método no disponible: " ++ pyLower s ++
        ". Métodos disponibles: euler, heun, rk4"), ?_⟩
      simp only [get_solver, hl]
  | some cls =>
      refine ⟨.typeError, ?_⟩
      simp only [get_solver, hl, instantiateSolver]

theorem heunSolve_eq (f t0 y0 h) (n : ℤ) (hh : 0 < h) (hn : 1 ≤ n) :
    HeunSolver.solve f t0 y0 h n = .ok (trajLists (heunNext f h) (t0, y0) n.toNat) := by
  unfold HeunSolver.solve
  rw [validar_int_ok t0 y0 h n hh hn]

theorem rk4Solve_eq (f t0 y0 h) (n : ℤ) (hh : 0 < h) (hn : 1 ≤ n) :
    RK4Solver.solve f t0 y0 h n = .ok (trajLists (rk4Next f h) (t0, y0) n.toNat) := by
  unfold RK4Solver.solve
  rw [validar_int_ok t0 y0 h n hh hn]

theorem methodSolve_eq (m : Method) (f : ℚ → ℚ → ℚ) (t0 y0 h : ℚ) (n : ℤ) (hh : 0 < h) (hn : 1 ≤ n) :
    m.solve f t0 y0 h n = .ok (trajLists (methodNext m f h) (t0, y0) n.toNat) := by
  cases m
  · exact eulerSolve_eq f t0 y0 h n hh hn
  · exact heunSolve_eq f t0 y0 h n hh hn
  · exact rk4Solve_eq f t0 y0 h n hh hn

theorem trajLists_snd_length (g p0 n) : (trajLists g p0 n).2.length = n + 1 := by
  simp [trajLists]

theorem trajLists_snd_head (g p0 n) : (trajLists g p0 n).2.head? = some p0.2 := by
  simp [trajLists, List.range_succ_eq_map, iterSteps]

theorem trajLists_snd_all_eq (g p0 n) (hg : ∀ p, (g p).2 = p.2) :
    ∀ y ∈ (trajLists g p0 n).2, y = p0.2 := by
  intro y hy
  simp only [trajLists, List.mem_map, List.mem_range] at hy
  obtain ⟨i, -, rfl⟩ := hy
  exact iterSteps_snd_fixed g p0 hg i

theorem heun_step_formula (f : ℚ → ℚ → ℚ) (h : ℚ) (s : ℚ × ℚ) (i : ℕ) :
    iterSteps (heunNext f h) s (i + 1) =
      (let p := iterSteps (heunNext f h) s i
       let k1 := f p.1 p.2
       let y_pred := p.2 + h * k1
       let k2 := f (p.1 + h) y_pred
       (p.1 + h, p.2 + (h / 2) * (k1 + k2))) := rfl

theorem solve_ok_iff (M : Method) (f : ℚ → ℚ → ℚ) (t0 y0 h : ℚ) (n : ℤ) :
    (∃ p, M.solve f t0 y0 h n = .ok p) ↔ 0 < h ∧ 1 ≤ n := by
  constructor
  · rintro ⟨p, hp⟩
    have hv : validar_parametros (.float (.finite t0)) (.float (.finite y0)) h (.int n)
        = .ok () := by
      cases hval : validar_parametros (.float (.finite t0)) (.float (.finite y0)) h (.int n) with
      | error e =>
          cases M <;> unfold Method.solve EulerSolver.solve HeunSolver.solve RK4Solver.solve at hp <;>
            simp [hval] at hp
      | ok u => rfl
    obtain ⟨-, h2, h3, -, -⟩ := (validar_ok_iff _ _ _ _).mp hv
    refine ⟨h3, ?_⟩
    simp [PyVal.nonposInt] at h2
    omega
  · rintro ⟨hh, hn⟩
    exact ⟨_, methodSolve_eq M f t0 y0 h n hh hn⟩

/-- C1: for every callable `f`, reals `t0`, `y0`, step `h > 0` and positive
integer `n`, `RK4Solver.solve` returns the trajectory generated by the RK4
stepping rule: for each step, with `k1 = f(t, y)`, `k2 = f(t+h/2, y+h*k1/2)`,
`k3 = f(t+h/2, y+h*k2/2)`, `k4 = f(t+h, y+h*k3)`, the next point is
`y + (h/6)*(k1+2*k2+2*k3+k4)` at `t + h`, and the instrumented loop performs
exactly four `evaluar_funcion` calls per step (`4*n` in total). -/
theorem rk4_solve_follows_rk4_rule (f : ℚ → ℚ → ℚ) (t0 y0 h : ℚ) (n : ℤ)
    (hh : 0 < h) (hn : 1 ≤ n) :
    RK4Solver.solve f t0 y0 h n = .ok (trajLists (rk4Next f h) (t0, y0) n.toNat) ∧
    (∀ i : ℕ, i < n.toNat →
      iterSteps (rk4Next f h) (t0, y0) (i + 1) =
        (let p := iterSteps (rk4Next f h) (t0, y0) i
         let k1 := f p.1 p.2
         let k2 := f (p.1 + h / 2) (p.2 + h * k1 / 2)
         let k3 := f (p.1 + h / 2) (p.2 + h * k2 / 2)
         let k4 := f (p.1 + h) (p.2 + h * k3)
         (p.1 + h, p.2 + (h / 6) * (k1 + 2 * k2 + 2 * k3 + k4)))) ∧
    (iterCounted (rk4NextCounted f h) (t0, y0) n.toNat).2 = 4 * n.toNat :=
  ⟨rk4Solve_eq f t0 y0 h n hh hn,
   fun i _ => rk4_step_formula f h (t0, y0) i,
   by rw [iterCounted_spec (rk4Next f h) _ 4 (rk4NextCounted_eq f h) (t0, y0) n.toNat]⟩

/-- Witness for C1 at `f(t,y) = t + y`, `t0 = 0`, `y0 = 1`, `h = 1`, `n = 1`. -/
theorem rk4_solve_follows_rk4_rule_witness :
    (0 : ℚ) < 1 ∧ (1 : ℤ) ≤ 1 ∧
    (RK4Solver.solve (fun t y => t + y) 0 1 1 1 =
        .ok (trajLists (rk4Next (fun t y => t + y) 1) (0, 1) (1 : ℤ).toNat) ∧
      (∀ i : ℕ, i < (1 : ℤ).toNat →
        iterSteps (rk4Next (fun t y => t + y) 1) (0, 1) (i + 1) =
          (let p := iterSteps (rk4Next (fun t y => t + y) 1) (0, 1) i
           let k1 := p.1 + p.2
           let k2 := (p.1 + 1 / 2) + (p.2 + 1 * k1 / 2)
           let k3 := (p.1 + 1 / 2) + (p.2 + 1 * k2 / 2)
           let k4 := (p.1 + 1) + (p.2 + 1 * k3)
           (p.1 + 1, p.2 + (1 / 6) * (k1 + 2 * k2 + 2 * k3 + k4)))) ∧
      (iterCounted (rk4NextCounted (fun t y => t + y) 1) (0, 1) (1 : ℤ).toNat).2 =
        4 * (1 : ℤ).toNat) :=
  ⟨by decide, by decide,
   rk4_solve_follows_rk4_rule (fun t y => t + y) 0 1 1 1 (by decide) (by decide)⟩

/-- C2: for every callable `f`, reals `t0`, `y0`, step `h > 0` and positive
integer `n`, `HeunSolver.solve` returns the trajectory generated by the Heun
predictor-corrector rule: per step, `k1 = f(t, y)`, `y_pred = y + h*k1`,
`k2 = f(t+h, y_pred)`, next point `y + (h/2)*(k1+k2)` at `t + h`, with
exactly two `evaluar_funcion` calls per step (`2*n` in total). -/
theorem heun_solve_follows_heun_rule (f : ℚ → ℚ → ℚ) (t0 y0 h : ℚ) (n : ℤ)
    (hh : 0 < h) (hn : 1 ≤ n) :
    HeunSolver.solve f t0 y0 h n = .ok (trajLists (heunNext f h) (t0, y0) n.toNat) ∧
    (∀ i : ℕ, i < n.toNat →
      iterSteps (heunNext f h) (t0, y0) (i + 1) =
        (let p := iterSteps (heunNext f h) (t0, y0) i
         let k1 := f p.1 p.2
         let y_pred := p.2 + h * k1
         let k2 := f (p.1 + h) y_pred
         (p.1 + h, p.2 + (h / 2) * (k1 + k2)))) ∧
    (iterCounted (heunNextCounted f h) (t0, y0) n.toNat).2 = 2 * n.toNat :=
  ⟨heunSolve_eq f t0 y0 h n hh hn,
   fun i _ => heun_step_formula f h (t0, y0) i,
   by rw [iterCounted_spec (heunNext f h) _ 2 (heunNextCounted_eq f h) (t0, y0) n.toNat]⟩

/-- Witness for C2 at `f(t,y) = t + y`, `t0 = 0`, `y0 = 1`, `h = 1`, `n = 1`. -/
theorem heun_solve_follows_heun_rule_witness :
    (0 : ℚ) < 1 ∧ (1 : ℤ) ≤ 1 ∧
    (HeunSolver.solve (fun t y => t + y) 0 1 1 1 =
        .ok (trajLists (heunNext (fun t y => t + y) 1) (0, 1) (1 : ℤ).toNat) ∧
      (∀ i : ℕ, i < (1 : ℤ).toNat →
        iterSteps (heunNext (fun t y => t + y) 1) (0, 1) (i + 1) =
          (let p := iterSteps (heunNext (fun t y => t + y) 1) (0, 1) i
           let k1 := p.1 + p.2
           let y_pred := p.2 + 1 * k1
           let k2 := (p.1 + 1) + y_pred
           (p.1 + 1, p.2 + (1 / 2) * (k1 + k2)))) ∧
      (iterCounted (heunNextCounted (fun t y => t + y) 1) (0, 1) (1 : ℤ).toNat).2 =
        2 * (1 : ℤ).toNat) :=
  ⟨by decide, by decide,
   heun_solve_follows_heun_rule (fun t y => t + y) 0 1 1 1 (by decide) (by decide)⟩

/-- C3: for every solver variant and valid input (`h > 0`, `n ≥ 1`), the
returned trajectory has exactly `n + 1` entries in each of `t_values` and
`y_values`, with `t_values[0] = t0` and `y_values[0] = y0` exactly. -/
theorem solvers_return_full_trajectory (f : ℚ → ℚ → ℚ) (t0 y0 h : ℚ) (n : ℤ)
    (hh : 0 < h) (hn : 1 ≤ n) :
    trajOk (EulerSolver.solve f t0 y0 h n) t0 y0 (n.toNat + 1) ∧
    trajOk (HeunSolver.solve f t0 y0 h n) t0 y0 (n.toNat + 1) ∧
    trajOk (RK4Solver.solve f t0 y0 h n) t0 y0 (n.toNat + 1) :=
  ⟨⟨_, _, by rw [eulerSolve_eq f t0 y0 h n hh hn], trajLists_fst_length _ _ _,
      trajLists_snd_length _ _ _, trajLists_fst_head _ _ _, trajLists_snd_head _ _ _⟩,
   ⟨_, _, by rw [heunSolve_eq f t0 y0 h n hh hn], trajLists_fst_length _ _ _,
      trajLists_snd_length _ _ _, trajLists_fst_head _ _ _, trajLists_snd_head _ _ _⟩,
   ⟨_, _, by rw [rk4Solve_eq f t0 y0 h n hh hn], trajLists_fst_length _ _ _,
      trajLists_snd_length _ _ _, trajLists_fst_head _ _ _, trajLists_snd_head _ _ _⟩⟩

/-- Witness for C3 at `f(t,y) = t*y`, `t0 = 2`, `y0 = 3`, `h = 1`, `n = 2`. -/
theorem solvers_return_full_trajectory_witness :
    (0 : ℚ) < 1 ∧ (1 : ℤ) ≤ 2 ∧
    (trajOk (EulerSolver.solve (fun t y => t * y) 2 3 1 2) 2 3 ((2 : ℤ).toNat + 1) ∧
     trajOk (HeunSolver.solve (fun t y => t * y) 2 3 1 2) 2 3 ((2 : ℤ).toNat + 1) ∧
     trajOk (RK4Solver.solve (fun t y => t * y) 2 3 1 2) 2 3 ((2 : ℤ).toNat + 1)) :=
  ⟨by decide, by decide,
   solvers_return_full_trajectory (fun t y => t * y) 2 3 1 2 (by decide) (by decide)⟩

/-- C5: for all three variants, solving with the identically zero right-hand
side leaves every entry of `y_values` equal to `y0`. -/
theorem zero_slope_keeps_y_constant (t0 y0 h : ℚ) (n : ℤ) (hh : 0 < h) (hn : 1 ≤ n) :
    constTraj (EulerSolver.solve (fun _ _ => 0) t0 y0 h n) y0 ∧
    constTraj (HeunSolver.solve (fun _ _ => 0) t0 y0 h n) y0 ∧
    constTraj (RK4Solver.solve (fun _ _ => 0) t0 y0 h n) y0 :=
  ⟨⟨_, _, by rw [eulerSolve_eq (fun _ _ => 0) t0 y0 h n hh hn],
      trajLists_snd_all_eq _ _ _ (eulerNext_zero_snd h)⟩,
   ⟨_, _, by rw [heunSolve_eq (fun _ _ => 0) t0 y0 h n hh hn],
      trajLists_snd_all_eq _ _ _ (heunNext_zero_snd h)⟩,
   ⟨_, _, by rw [rk4Solve_eq (fun _ _ => 0) t0 y0 h n hh hn],
      trajLists_snd_all_eq _ _ _ (rk4Next_zero_snd h)⟩⟩

/-- Witness for C5 at `t0 = 5`, `y0 = 7`, `h = 2`, `n = 3`. -/
theorem zero_slope_keeps_y_constant_witness :
    (0 : ℚ) < 2 ∧ (1 : ℤ) ≤ 3 ∧
    (constTraj (EulerSolver.solve (fun _ _ => 0) 5 7 2 3) 7 ∧
     constTraj (HeunSolver.solve (fun _ _ => 0) 5 7 2 3) 7 ∧
     constTraj (RK4Solver.solve (fun _ _ => 0) 5 7 2 3) 7) :=
  ⟨by decide, by decide, zero_slope_keeps_y_constant 5 7 2 3 (by decide) (by decide)⟩

/-- C4 counterexample: `t0 = float('inf')` is not a finite real number, yet
`_validar_parametros` raises nothing — the source checks
`isinstance(t0, (int, float))` and never tests finiteness. -/
theorem validar_accepts_infinite_t0 :
    validar_parametros (.float .posinf) (.float (.finite 0)) 1 (.int 1) = .ok () ∧
    (PyVal.float .posinf).isFiniteNumber = false :=
  ⟨rfl, rfl⟩

/-- C4 (amended): for every solver variant, `solve` raises `ValueError`
exactly when `h ≤ 0`, or `n` is not a positive `int`, or `t0`/`y0` is not a
number (`int` or `float`); finiteness of `t0`, `y0` is not checked, so
infinite and NaN floats pass validation.  When the checks pass no error is
raised and a trajectory is returned (no clamping). -/
theorem validar_checks_types_not_finiteness :
    (∀ (t0 y0 : PyVal) (h : ℚ) (n : PyVal),
      validar_parametros t0 y0 h n = .ok () ↔
        n.isInstInt = true ∧ n.nonposInt = false ∧ 0 < h ∧
          t0.isNumber = true ∧ y0.isNumber = true) ∧
    (∀ (f : ℚ → ℚ → ℚ) (t0 y0 h : ℚ) (n : ℤ),
      (∃ p, EulerSolver.solve f t0 y0 h n = .ok p) ↔ 0 < h ∧ 1 ≤ n) ∧
    (∀ (f : ℚ → ℚ → ℚ) (t0 y0 h : ℚ) (n : ℤ),
      (∃ p, HeunSolver.solve f t0 y0 h n = .ok p) ↔ 0 < h ∧ 1 ≤ n) ∧
    (∀ (f : ℚ → ℚ → ℚ) (t0 y0 h : ℚ) (n : ℤ),
      (∃ p, RK4Solver.solve f t0 y0 h n = .ok p) ↔ 0 < h ∧ 1 ≤ n) :=
  ⟨validar_ok_iff,
   fun f t0 y0 h n => solve_ok_iff .euler f t0 y0 h n,
   fun f t0 y0 h n => solve_ok_iff .heun f t0 y0 h n,
   fun f t0 y0 h n => solve_ok_iff .rk4 f t0 y0 h n⟩

/-- C6: at an index where the analytic value is `0` and the numeric value is
not, `calculate_errors` yields the largest finite double — `np.nan_to_num`'s
default substitute for `+inf` — instead of the `0` promised by the spec and
by the source's own comment; a nonzero analytic index is computed normally as
`|y_numeric - y_analytic| / |y_analytic|` for contrast. -/
theorem calculate_errors_zero_analytic_bug :
    calculate_errors [1, 3] [0, 2] = ([1, 1], [float64_max, 1 / 2]) ∧
    float64_max ≠ 0 := by
  constructor
  · norm_num [calculate_errors, npDiv, npAbsF, nan_to_num]
  · norm_num [float64_max]

/-- C7 counterexample: with two distinct step sizes sampled (and log scale
enabled, the default), `analyze_step_size` raises `TypeError` at
`get_solver` (line 53) instead of returning an `estimated_order`. -/
theorem analyze_step_size_no_order_despite_two_steps :
    analyze_step_size "euler" "y" 0 1 2 none [1 / 10, 1 / 100] true id =
      .error .typeError ∧
    [(1 : ℚ) / 10, 1 / 100].length = 2 ∧ (1 : ℚ) / 10 ≠ 1 / 100 := by
  refine ⟨rfl, rfl, ?_⟩
  norm_num

/-- C7 (amended): `analyze_step_size` never returns an `estimated_order` —
whatever the number of step sizes, it raises at `get_solver(method_name)`
(line 53), before any step size is sampled or any least-squares fit is
computed: `TypeError` for each registered method name (the solver
constructors require the `funcion` argument the zero-argument call omits),
and `ValueError` naming the valid methods for every unregistered name. -/
theorem analyze_step_size_always_raises (method_name func_str : String)
    (t0 y0 t_end : ℚ) (solution_str : Option (ℚ → ℚ)) (step_sizes : List ℚ)
    (log_scale : Bool) (L : ℚ → ℚ) :
    (∃ e, analyze_step_size method_name func_str t0 y0 t_end solution_str
        step_sizes log_scale L = .error e) ∧
    (∀ m ∈ ["euler", "heun", "rk4"],
      analyze_step_size m func_str t0 y0 t_end solution_str step_sizes
          log_scale L = .error .typeError) ∧
    (∀ m : String, selectedClass m = none →
      analyze_step_size m func_str t0 y0 t_end solution_str step_sizes
          log_scale L = .error (.valueError ("Método no disponible: " ++
            pyLower m ++ ". Métodos disponibles: euler, heun, rk4"))) := by
  refine ⟨?_, ?_, ?_⟩
  · obtain ⟨e, he⟩ := get_solver_always_raises method_name
    exact ⟨e, by simp only [analyze_step_size, he]⟩
  · intro m hm
    simp only [List.mem_cons, List.not_mem_nil, or_false] at hm
    rcases hm with rfl | rfl | rfl <;> rfl
  · intro m hm
    unfold selectedClass at hm
    have hg : get_solver m = .error (.valueError ("Método no disponible: " ++
        pyLower m ++ ". Métodos disponibles: euler, heun, rk4")) := by
      simp only [get_solver, hm]
    simp only [analyze_step_size, hg]

/-- Witness for C7's amended theorem at concrete arguments. -/
theorem analyze_step_size_always_raises_witness :
    (∃ e, analyze_step_size "midpoint" "y" 0 1 2 none [1 / 10] false id =
        .error e) ∧
    (∀ m ∈ ["euler", "heun", "rk4"],
      analyze_step_size m "y" 0 1 2 none [1 / 10] false id =
        .error .typeError) ∧
    (∀ m : String, selectedClass m = none →
      analyze_step_size m "y" 0 1 2 none [1 / 10] false id =
        .error (.valueError ("Método no disponible: " ++ pyLower m ++
          ". Métodos disponibles: euler, heun, rk4"))) :=
  analyze_step_size_always_raises "midpoint" "y" 0 1 2 none [1 / 10] false id

/-- C9: `get_solver` raises for EVERY input: an unknown name raises
`ValueError` listing the valid names, but each valid name raises `TypeError`,
because `AVAILABLE_SOLVERS[method_name]()` calls the selected class with no
arguments while every solver constructor requires the `funcion` argument. -/
theorem get_solver_eval :
    get_solver "euler" = .error .typeError ∧
    get_solver "heun" = .error .typeError ∧
    get_solver "rk4" = .error .typeError ∧
    get_solver "midpoint" = .error (.valueError
      "Método no disponible: midpoint. Métodos disponibles: euler, heun, rk4") :=
  ⟨rfl, rfl, rfl, rfl⟩

/-- C10: `get_solver` lowercases the method name before lookup, so it treats
`s` and `s.lower()` identically (same selected class, and same error when
there is one); in particular `EULER`, `Euler` and `euler` all select the
Euler solver class. -/
theorem get_solver_case_insensitive :
    (∀ s : String, get_solver s = get_solver (pyLower s)) ∧
    selectedClass "EULER" = some .euler ∧
    selectedClass "Euler" = some .euler ∧
    selectedClass "euler" = some .euler :=
  ⟨get_solver_lower_eq, rfl, rfl, rfl⟩

/-- C8: no reference trajectory is ever built: calling `analyze_step_size`
with several step sizes and no analytic solution raises `TypeError` at
`get_solver(method_name)` (line 53) before the sweep starts, so the lazily
built reference of lines 75-85 never comes into existence — and it could not
be built anyway, since `get_solver('rk4')` (line 80) itself raises
`TypeError` and the five-argument `solve` call does too. -/
theorem reference_trajectory_never_built :
    analyze_step_size "rk4" "y" 0 1 2 none [1 / 10, 1 / 100] true id =
      .error .typeError ∧
    get_solver "rk4" = .error .typeError ∧
    (∀ (solver : SolverInstance) (func_str : String) (t0 y0 h : ℚ) (n : ℤ),
      solveCallFiveArgs solver func_str t0 y0 h n = .error .typeError) :=
  ⟨rfl, rfl, fun _ _ _ _ _ _ => rfl⟩
